import Mathlib

/-!
Verification of the pymfcd multicast control-plane daemon.

This development shallowly embeds the daemon's core (src/mfc_daemon.py,
src/validation.py, src/kernel_ffi.py) in Lean 4 and proves or refutes the
claims of the project specification against it.

Modelling conventions:
* Python dicts keyed by strings become association lists in insertion
  order (`jlookup`, `updateA`, `eraseA`); Python dict insertion of a new
  key appends at the end, assignment to an existing key updates in place.
* Kernel calls (`setsockopt` on the mrouted socket) and interface-index
  resolution are modelled by an oracle `KernelEnv` that decides, per
  argument vector, whether each call succeeds; every issued call is
  recorded in an ordered trace of `KernelCall` values.
* Python exceptions become `Except PyErr`; an uncaught exception is an
  `.error` result.  State mutations performed before a raise persist,
  so every function returns its result together with the state and the
  trace at the moment it returns or raises.
* Exact Python error-message text (which interpolates with f-strings) is
  abbreviated to fixed strings; no claim depends on message wording.
-/

/-- JSON values as produced by `json.loads` / consumed by `json.dump`. -/
inductive JsonV where
  | str (s : String)
  | num (n : Int)
  | bool (b : Bool)
  | null
  | arr (xs : List JsonV)
  | obj (fields : List (String × JsonV))
deriving Repr

mutual

/-- Structural equality of JSON values (Python `==` on parsed JSON). -/
def jeq : JsonV → JsonV → Bool
  | .str a, .str b => a == b
  | .num a, .num b => a == b
  | .bool a, .bool b => a == b
  | .null, .null => true
  | .arr xs, .arr ys => jeqList xs ys
  | .obj fs, .obj gs => jeqFields fs gs
  | _, _ => false

def jeqList : List JsonV → List JsonV → Bool
  | [], [] => true
  | x :: xs, y :: ys => jeq x y && jeqList xs ys
  | _, _ => false

def jeqFields : List (String × JsonV) → List (String × JsonV) → Bool
  | [], [] => true
  | (k, v) :: fs, (k2, v2) :: gs => k == k2 && jeq v v2 && jeqFields fs gs
  | _, _ => false

end

/-- Lookup in an association list (Python `dict.get`: first, and in a
parsed-JSON dict only, occurrence of the key). -/
def jlookup (fields : List (String × JsonV)) (k : String) : Option JsonV :=
  match fields with
  | [] => none
  | (k2, v) :: rest => if k2 = k then some v else jlookup rest k

/-- Membership test distinguishing no duplicate array items
(jsonschema `uniqueItems`). -/
def jmem (x : JsonV) : List JsonV → Bool
  | [] => false
  | y :: ys => jeq x y || jmem x ys

def jnodup : List JsonV → Bool
  | [] => true
  | x :: xs => !jmem x xs && jnodup xs

/-! ## src/validation.py

The daemon validates IPC commands with `jsonschema.validate` against the
schemas `base_command_schema`, `add_mfc_rule_schema` and
`del_mfc_rule_schema`.  The code passes no `format_checker`, so the
`"format": "ipv4"` annotations are NOT enforced (jsonschema treats
`format` as advisory by default; the repository's own
tests/test_validation.py notes this).  The checks below are exactly the
enforced keywords: `type`, `minLength`, `minItems`, `uniqueItems`,
`required`, and per-property `properties` checks applied only when the
property is present. -/

def isStr : JsonV → Bool
  | .str _ => true
  | _ => false

def isBool : JsonV → Bool
  | .bool _ => true
  | _ => false

/-- A string of length at least 1 (`"type": "string", "minLength": 1`). -/
def strMin1 : JsonV → Bool
  | .str s => decide (1 ≤ s.length)
  | _ => false

/-- The `oifs` subschema: an array of strings of minLength 1, with
`minItems: 1` and `uniqueItems: true`. -/
def oifsOk : JsonV → Bool
  | .arr xs => xs.all strMin1 && decide (1 ≤ xs.length) && jnodup xs
  | _ => false

/-- A `properties` entry: checked only when the key is present. -/
def propOk (fields : List (String × JsonV)) (k : String) (check : JsonV → Bool) : Bool :=
  match jlookup fields k with
  | none => true
  | some v => check v

/-- The `required` keyword: every listed key is present. -/
def requiredOk (fields : List (String × JsonV)) (keys : List String) : Bool :=
  keys.all fun k => (jlookup fields k).isSome

/-- Validation of a payload against `add_mfc_rule_schema`. -/
def addMfcPayloadOk : JsonV → Bool
  | .obj fields =>
    propOk fields "source" isStr &&
    propOk fields "group" isStr &&
    propOk fields "iif" strMin1 &&
    propOk fields "oifs" oifsOk &&
    propOk fields "dry_run" isBool &&
    requiredOk fields ["source", "group", "iif", "oifs"]
  | _ => false

/-- Validation of a payload against `del_mfc_rule_schema`. -/
def delMfcPayloadOk : JsonV → Bool
  | .obj fields =>
    propOk fields "source" isStr &&
    propOk fields "group" isStr &&
    propOk fields "dry_run" isBool &&
    requiredOk fields ["source", "group"]
  | _ => false

/-- Validation against `base_command_schema`: an object with a required
string property `action`. -/
def baseCommandOk : JsonV → Bool
  | .obj fields => propOk fields "action" isStr && requiredOk fields ["action"]
  | _ => false

/-- `CommandValidator.validate`: base-schema check, then dispatch on the
action to the per-action payload validator.  Returns
`(validated_payload, error_message)` exactly as the Python method does;
`payload` defaults to the empty object when the key is absent.  `SHOW`
accepts any payload unchanged. -/
def cvValidate (cmd : JsonV) : Option JsonV × Option String :=
  match cmd with
  | .obj fields =>
    if baseCommandOk cmd then
      let payload := (jlookup fields "payload").getD (.obj [])
      match jlookup fields "action" with
      | some (.str "ADD_MFC") =>
        if addMfcPayloadOk payload then (some payload, none)
        else (none, some "Invalid ADD_MFC payload")
      | some (.str "DEL_MFC") =>
        if delMfcPayloadOk payload then (some payload, none)
        else (none, some "Invalid DEL_MFC payload")
      | some (.str "SHOW") => (some payload, none)
      | some (.str a) => (none, some ("Unknown action: " ++ a))
      | _ => (none, some "Invalid command structure")
    else (none, some "Invalid command structure")
  | _ => (none, some "Invalid command structure")

/-! ## Data model of src/mfc_daemon.py -/

/-- One value of `MfcDaemon.vif_map`: the dict with the keys `vifi`,
`ref_count` and `ifindex`.  The reference
count is a `Nat`: entries are created with count 1 and removed by
`release_vif` as soon as a decrement makes the count reach zero, so the
Python value never goes below zero while the entry is observable. -/
structure VifEntry where
  vifi : Nat
  ref_count : Nat
  ifindex : Nat
deriving Repr, DecidableEq

/-- One entry of `MfcDaemon.mfc_rules`. -/
structure Rule where
  source : String
  group : String
  iif : String
  oifs : List String
deriving Repr, DecidableEq

/-- The daemon's in-memory state: `vif_map` (insertion-ordered dict from
interface name to `VifEntry`) and the rule list `mfc_rules`. -/
structure DaemonState where
  vif_map : List (String × VifEntry)
  mfc_rules : List Rule
deriving Repr, DecidableEq

/-- A kernel call issued through `KernelInterface` (one `setsockopt`). -/
inductive KernelCall where
  | add_vif (vifi ifindex : Nat)
  | del_vif (vifi ifindex : Nat)
  | add_mfc (source group : String) (iif_vifi : Nat) (oif_vifis : List Nat)
  | del_mfc (source group : String)
deriving Repr, DecidableEq

/-- The environment oracle: `ifindex` models `socket.if_nametoindex`
(`none` = "interface not found", raising ValueError in `get_ifindex`);
the `_ok` fields decide whether each kernel `setsockopt` succeeds
(`false` = nonzero return, raising OSError in `_check_call`). -/
structure KernelEnv where
  ifindex : String → Option Nat
  add_vif_ok : Nat → Nat → Bool
  del_vif_ok : Nat → Nat → Bool
  add_mfc_ok : String → String → Nat → List Nat → Bool
  del_mfc_ok : String → String → Bool

/-- Python exceptions raised by the daemon core. -/
inductive PyErr where
  | valueError (msg : String)
  | osError (op : String)
  | runtimeError (msg : String)
deriving Repr, DecidableEq

/-- Rendering used where Python formats `str(e)` into a response. -/
def pyErrMsg : PyErr → String
  | .valueError m => m
  | .osError op => op
  | .runtimeError m => m

/-- Association-list lookup for `vif_map` (`if_name in self.vif_map` /
`self.vif_map[if_name]`). -/
def lookupA (m : List (String × VifEntry)) (k : String) : Option VifEntry :=
  match m with
  | [] => none
  | (k2, v) :: rest => if k2 = k then some v else lookupA rest k

/-- In-place update of the value at an existing key (Python assignment
to a present dict key keeps the key's position). -/
def updateA (m : List (String × VifEntry)) (k : String) (v : VifEntry) :
    List (String × VifEntry) :=
  match m with
  | [] => []
  | (k2, v2) :: rest => if k2 = k then (k2, v) :: rest else (k2, v2) :: updateA rest k v

/-- Deletion of a key (`del self.vif_map[if_name]`). -/
def eraseA (m : List (String × VifEntry)) (k : String) : List (String × VifEntry) :=
  match m with
  | [] => []
  | (k2, v2) :: rest => if k2 = k then rest else (k2, v2) :: eraseA rest k

/-- Whether some binding already occupies VIF index `i`
(membership in `used_vifis` inside `_find_next_vifi`). -/
def vifiUsed (m : List (String × VifEntry)) (i : Nat) : Bool :=
  m.any fun kv => kv.2.vifi == i

/-- The ascending scan `for i in range(32)` of `_find_next_vifi`,
written with explicit fuel (32 iterations starting at `i`). -/
def findFreeAux (m : List (String × VifEntry)) : Nat → Nat → Option Nat
  | _, 0 => none
  | i, fuel + 1 => if vifiUsed m i then findFreeAux m (i + 1) fuel else some i

/-- `MfcDaemon._find_next_vifi`: lowest unused VIF index in [0, 32), or
RuntimeError when all 32 slots are taken. -/
def find_next_vifi (m : List (String × VifEntry)) : Except PyErr Nat :=
  match findFreeAux m 0 32 with
  | some i => .ok i
  | none => .error (.runtimeError "Maximum number of VIFs (32) reached.")

/-- `MfcDaemon._get_or_create_vif` (the `transaction_log` parameter of
the Python function is appended to but never read anywhere in the
repository, so it is omitted).  Source order: bound names get their
ref-count incremented with no kernel traffic; otherwise the lowest free
VIF index is computed, the ifindex resolved, `_add_vif` issued, and the
binding inserted (appended) with ref-count 1. -/
def get_or_create_vif (env : KernelEnv) (st : DaemonState) (if_name : String) :
    Except PyErr Nat × DaemonState × List KernelCall :=
  match lookupA st.vif_map if_name with
  | some e =>
    (.ok e.vifi,
     { st with vif_map := updateA st.vif_map if_name { e with ref_count := e.ref_count + 1 } },
     [])
  | none =>
    match find_next_vifi st.vif_map with
    | .error er => (.error er, st, [])
    | .ok vifi =>
      match env.ifindex if_name with
      | none => (.error (.valueError ("Interface " ++ if_name ++ " not found.")), st, [])
      | some ifx =>
        if env.add_vif_ok vifi ifx then
          (.ok vifi,
           { st with vif_map := st.vif_map ++ [(if_name, ⟨vifi, 1, ifx⟩)] },
           [.add_vif vifi ifx])
        else (.error (.osError "MRT_ADD_VIF"), st, [.add_vif vifi ifx])

/-- `MfcDaemon._release_vif`: a missing binding is only warned about;
otherwise the ref-count is decremented and, when it reaches zero,
`_del_vif` is issued and the binding deleted.  If `_del_vif` fails the
OSError propagates and the entry is left behind with count zero,
exactly as in the Python code (the decrement happens first, the
deletion only after a successful kernel call). -/
def release_vif (env : KernelEnv) (st : DaemonState) (if_name : String) :
    Except PyErr Unit × DaemonState × List KernelCall :=
  match lookupA st.vif_map if_name with
  | none => (.ok (), st, [])
  | some e =>
    let newCount := e.ref_count - 1
    let m1 := updateA st.vif_map if_name { e with ref_count := newCount }
    if newCount = 0 then
      if env.del_vif_ok e.vifi e.ifindex then
        (.ok (), { st with vif_map := eraseA m1 if_name }, [.del_vif e.vifi e.ifindex])
      else (.error (.osError "MRT_DEL_VIF"), { st with vif_map := m1 },
            [.del_vif e.vifi e.ifindex])
    else (.ok (), { st with vif_map := m1 }, [])

/-- Sequential release of a list of names, stopping at the first raised
exception (the rollback loop and the oifs loop of `del_mfc_rule`). -/
def release_vifs (env : KernelEnv) (st : DaemonState) :
    List String → Except PyErr Unit × DaemonState × List KernelCall
  | [] => (.ok (), st, [])
  | n :: rest =>
    match release_vif env st n with
    | (.ok _, st1, c1) =>
      match release_vifs env st1 rest with
      | (r, st2, c2) => (r, st2, c1 ++ c2)
    | (.error e, st1, c1) => (.error e, st1, c1)

/-- Sequential acquisition of the oifs (the list comprehension in
`add_mfc_rule`), stopping at the first raised exception. -/
def get_or_create_vifs (env : KernelEnv) (st : DaemonState) :
    List String → Except PyErr (List Nat) × DaemonState × List KernelCall
  | [] => (.ok [], st, [])
  | n :: rest =>
    match get_or_create_vif env st n with
    | (.ok v, st1, c1) =>
      match get_or_create_vifs env st1 rest with
      | (.ok vs, st2, c2) => (.ok (v :: vs), st2, c1 ++ c2)
      | (.error e, st2, c2) => (.error e, st2, c1 ++ c2)
    | (.error e, st1, c1) => (.error e, st1, c1)

/-- The `except` block of `add_mfc_rule`: release every name in
`interfaces_used` in input (FIFO) order, then re-raise the original
exception; an exception raised by a release replaces the original. -/
def add_rollback (env : KernelEnv) (st : DaemonState) (interfaces : List String)
    (e : PyErr) (c : List KernelCall) :
    Except PyErr (Bool × String) × DaemonState × List KernelCall :=
  match release_vifs env st interfaces with
  | (.ok _, st1, c1) => (.error e, st1, c ++ c1)
  | (.error e2, st1, c1) => (.error e2, st1, c ++ c1)

/-- `MfcDaemon.add_mfc_rule`.  Source order: acquire the iif, acquire
each oif in order, issue `_add_mfc`, append the rule.  On any exception
the rollback releases ALL of `interfaces_used = [iif] + oifs` (not only
the acquisitions this transaction performed) and re-raises. -/
def add_mfc_rule (env : KernelEnv) (st : DaemonState)
    (source group iif : String) (oifs : List String) :
    Except PyErr (Bool × String) × DaemonState × List KernelCall :=
  let interfaces_used := iif :: oifs
  match get_or_create_vif env st iif with
  | (.ok iif_vifi, st1, c1) =>
    match get_or_create_vifs env st1 oifs with
    | (.ok oif_vifis, st2, c2) =>
      if env.add_mfc_ok source group iif_vifi oif_vifis then
        (.ok (true, "MFC entry added successfully."),
         { st2 with mfc_rules := st2.mfc_rules ++ [⟨source, group, iif, oifs⟩] },
         c1 ++ c2 ++ [.add_mfc source group iif_vifi oif_vifis])
      else
        add_rollback env st2 interfaces_used (.osError "MRT_ADD_MFC")
          (c1 ++ c2 ++ [.add_mfc source group iif_vifi oif_vifis])
    | (.error e, st2, c2) => add_rollback env st2 interfaces_used e (c1 ++ c2)
  | (.error e, st1, c1) => add_rollback env st1 interfaces_used e c1

/-- Removal of the first list element equal to `r`
(Python `list.remove`). -/
def removeFirst : List Rule → Rule → List Rule
  | [], _ => []
  | x :: xs, r => if x = r then xs else x :: removeFirst xs r

/-- `MfcDaemon.del_mfc_rule`.  All exceptions are caught and converted
to `(False, str(e))`; on the success path the rule is removed after a
successful `_del_mfc` and the iif then each oif released. -/
def del_mfc_rule (env : KernelEnv) (st : DaemonState) (source group : String) :
    (Bool × String) × DaemonState × List KernelCall :=
  match st.mfc_rules.find? (fun r => r.source == source && r.group == group) with
  | none => ((false, "Rule for (" ++ source ++ ", " ++ group ++ ") not found."), st, [])
  | some rule =>
    if env.del_mfc_ok source group then
      let st1 := { st with mfc_rules := removeFirst st.mfc_rules rule }
      match release_vif env st1 rule.iif with
      | (.ok _, st2, c2) =>
        match release_vifs env st2 rule.oifs with
        | (.ok _, st3, c3) =>
          ((true, "MFC entry deleted successfully."), st3, .del_mfc source group :: (c2 ++ c3))
        | (.error e, st3, c3) => ((false, pyErrMsg e), st3, .del_mfc source group :: (c2 ++ c3))
      | (.error e, st2, c2) => ((false, pyErrMsg e), st2, .del_mfc source group :: c2)
    else ((false, "MRT_DEL_MFC"), st, [.del_mfc source group])

/-! ## Persistence (save_state / load_state) -/

/-- JSON encoding of one `vif_map` entry, as `json.dump` serializes the
Python dict (insertion order of the keys in `_get_or_create_vif`). -/
def encodeVifEntry (e : VifEntry) : JsonV :=
  .obj [("vifi", .num e.vifi), ("ref_count", .num e.ref_count), ("ifindex", .num e.ifindex)]

def encodeVifMap (m : List (String × VifEntry)) : JsonV :=
  .obj (m.map fun kv => (kv.1, encodeVifEntry kv.2))

/-- JSON encoding of one rule dict, key order as written in
`add_mfc_rule`. -/
def encodeRule (r : Rule) : JsonV :=
  .obj [("source", .str r.source), ("group", .str r.group), ("iif", .str r.iif),
        ("oifs", .arr (r.oifs.map .str))]

/-- The document `save_state` serializes: the Python `state` dict with the two keys `vif_map` and `mfc_rules`, in that order. -/
def save_state_doc (st : DaemonState) : JsonV :=
  .obj [("vif_map", encodeVifMap st.vif_map), ("mfc_rules", .arr (st.mfc_rules.map encodeRule))]

/-- The keys of a top-level JSON object. -/
def topLevelKeys : JsonV → List String
  | .obj fields => fields.map (·.1)
  | _ => []

/-- Content of a file while `save_state` is in progress: `open(p, "w")`
truncates the file, a completed `json.dump` leaves the document. -/
inductive FileState where
  | truncated
  | data (d : JsonV)
deriving Repr

/-- File-system operations relevant to `save_state`. -/
inductive FileOp where
  | openWrite (path : String)
  | writeDoc (path : String) (d : JsonV)
  | rename (src dst : String)
deriving Repr

def isRename : FileOp → Bool
  | .rename _ _ => true
  | _ => false

def lookupFile (fs : List (String × FileState)) (p : String) : Option FileState :=
  match fs with
  | [] => none
  | (p2, c) :: rest => if p2 = p then some c else lookupFile rest p

def setFile (fs : List (String × FileState)) (p : String) (c : FileState) :
    List (String × FileState) :=
  match fs with
  | [] => [(p, c)]
  | (p2, c2) :: rest => if p2 = p then (p2, c) :: rest else (p2, c2) :: setFile rest p c

def applyOp (fs : List (String × FileState)) : FileOp → List (String × FileState)
  | .openWrite p => setFile fs p .truncated
  | .writeDoc p d => setFile fs p (.data d)
  | .rename src dst =>
    match lookupFile fs src with
    | some c => setFile fs dst c
    | none => fs

def applyOps (fs : List (String × FileState)) (ops : List FileOp) :
    List (String × FileState) :=
  ops.foldl applyOp fs

/-- `MfcDaemon.save_state`: `open(state_file_path, "w")` followed by
`json.dump(state, f)` — a truncating open of the FINAL path and a write
of the document to it.  No temporary file and no rename appear in the
source. -/
def save_state_ops (path : String) (st : DaemonState) : List FileOp :=
  [.openWrite path, .writeDoc path (save_state_doc st)]

/-- The replay loop of `MfcDaemon.load_state`: `for rule in
loaded_rules: self.add_mfc_rule(...)`.  The loop body is NOT guarded
individually; the whole loop sits inside the single
`try/except Exception` of `load_state`, so the first exception aborts
the remaining iterations.  Result: final state, trace, and the caught
exception (logged by the handler) if any. -/
def replayRules (env : KernelEnv) (st : DaemonState) :
    List Rule → DaemonState × List KernelCall × Option PyErr
  | [] => (st, [], none)
  | r :: rest =>
    match add_mfc_rule env st r.source r.group r.iif r.oifs with
    | (.ok _, st1, c1) =>
      match replayRules env st1 rest with
      | (st2, c2, e) => (st2, c1 ++ c2, e)
    | (.error e, st1, c1) => (st1, c1, some e)

/-- `MfcDaemon.load_state` on a present, parseable state file whose
`mfc_rules` member decodes to `rules`: the in-memory state is cleared
and the rules replayed through `add_mfc_rule`. -/
def load_state_parsed (env : KernelEnv) (_st : DaemonState) (rules : List Rule) :
    DaemonState × List KernelCall × Option PyErr :=
  replayRules env ⟨[], []⟩ rules

/-! ## Kernel ABI (src/kernel_ffi.py)

`KernelInterface` declares `struct mfcctl` through cffi, which lays the
struct out with the platform C ABI: each field is aligned to its natural
alignment and the struct size is padded to a multiple of the largest
field alignment. -/

/-- Size and alignment of a C field on the reference (x86-64) ABI. -/
structure CType where
  size : Nat
  align : Nat
deriving Repr, DecidableEq

def alignUp (off a : Nat) : Nat := ((off + a - 1) / a) * a

/-- Offsets assigned to a field list starting at `off`, plus the end
offset of the last field. -/
def layoutFields : List (String × CType) → Nat → List (String × Nat) × Nat
  | [], off => ([], off)
  | (n, t) :: rest, off =>
    let o := alignUp off t.align
    let (l, e) := layoutFields rest (o + t.size)
    ((n, o) :: l, e)

def maxAlign (fields : List (String × CType)) : Nat :=
  fields.foldl (fun a kv => max a kv.2.align) 1

def structSize (fields : List (String × CType)) : Nat :=
  alignUp (layoutFields fields 0).2 (maxAlign fields)

def offsetOf (fields : List (String × CType)) (n : String) : Option Nat :=
  ((layoutFields fields 0).1.find? (fun kv => kv.1 == n)).map (·.2)

/-- The fields of `struct mfcctl` exactly as declared in
`C_HEADER_CODE`: two `struct in_addr` (4 bytes, alignment 4), a
`vifi_t` = `unsigned short` (2, 2), `unsigned char mfcc_ttls[MAXVIFS]`
(32 bytes, alignment 1), the explicit `char _padding[2]` (2, 1), three
`unsigned int` and one `int` (4, 4 each). -/
def mfcctlFields : List (String × CType) :=
  [("mfcc_origin", ⟨4, 4⟩), ("mfcc_mcastgrp", ⟨4, 4⟩), ("mfcc_parent", ⟨2, 2⟩),
   ("mfcc_ttls", ⟨32, 1⟩), ("_padding", ⟨2, 1⟩), ("mfcc_pkt_cnt", ⟨4, 4⟩),
   ("mfcc_byte_cnt", ⟨4, 4⟩), ("mfcc_wrong_if", ⟨4, 4⟩), ("mfcc_expire", ⟨4, 4⟩)]

/-- The fields of `struct vifctl` as declared in `C_HEADER_CODE`. -/
def vifctlFields : List (String × CType) :=
  [("vifc_vifi", ⟨2, 2⟩), ("vifc_flags", ⟨1, 1⟩), ("vifc_threshold", ⟨1, 1⟩),
   ("vifc_rate_limit", ⟨4, 4⟩), ("vifc_lcl", ⟨4, 4⟩), ("vifc_rmt_addr", ⟨4, 4⟩)]

/-- The `mfcc_ttls` array produced by `_add_mfc`: `ffi.new` zero-fills
the struct, then `for vifi in oif_vifis: if 0 <= vifi < 32:
mfc_ctl.mfcc_ttls[vifi] = 1`. -/
def mfccTtls (oif_vifis : List Nat) : List Nat :=
  oif_vifis.foldl (fun acc v => if v < 32 then acc.set v 1 else acc)
    (List.replicate 32 0)

/-! ## Command dispatch (MfcDaemon._handle_command) -/

/-- A response dict with a `status` and optional `message` and `payload` members. -/
structure Response where
  status : String
  message : Option String
  payload : Option JsonV
deriving Repr

/-- The `action` string of a command (`command.get("action")`). -/
def getAction : JsonV → Option String
  | .obj fields =>
    match jlookup fields "action" with
    | some (.str a) => some a
    | _ => none
  | _ => none

/-- String field extraction (`payload.get(k)` when the value is a
string; validated ADD_MFC/DEL_MFC payloads always hit the string case). -/
def getStrField (p : JsonV) (k : String) : Option String :=
  match p with
  | .obj fields =>
    match jlookup fields k with
    | some (.str s) => some s
    | _ => none
  | _ => none

/-- String-list field extraction for `oifs` (validated payloads hold an
array of strings; non-string members cannot survive validation and are
dropped here). -/
def getStrListField (p : JsonV) (k : String) : Option (List String) :=
  match p with
  | .obj fields =>
    match jlookup fields k with
    | some (.arr xs) =>
      some (xs.filterMap fun v => match v with | .str s => some s | _ => none)
    | _ => none
  | _ => none

/-- `MfcDaemon._handle_command`: validate, then dispatch inside a
`try/except Exception` that converts any raised exception into an error
response.  Defaults mirror the Python `.get` calls: `source` defaults
to "0.0.0.0", `oifs` to `[]`; `group`/`iif` are present in every
validated payload (their defaults here are dead code, as in Python
where `payload.get("group")` would yield None only on an unvalidated
payload). -/
def handle_command (env : KernelEnv) (st : DaemonState) (cmd : JsonV) :
    Response × DaemonState × List KernelCall :=
  match cvValidate cmd with
  | (_, some m) =>
    (⟨"error", some ("Validation failed: " ++ m), none⟩, st, [])
  | (vp, none) =>
    match getAction cmd with
    | some "ADD_MFC" =>
      let p := vp.getD (.obj [])
      let source := (getStrField p "source").getD "0.0.0.0"
      let group := (getStrField p "group").getD ""
      let iif := (getStrField p "iif").getD ""
      let oifs := (getStrListField p "oifs").getD []
      match add_mfc_rule env st source group iif oifs with
      | (.ok (true, _), st1, c1) =>
        (⟨"success", some ("MFC entry for (" ++ source ++ ", " ++ group ++ ") added."),
          none⟩, st1, c1)
      | (.ok (false, m), st1, c1) => (⟨"error", some m, none⟩, st1, c1)
      | (.error e, st1, c1) => (⟨"error", some (pyErrMsg e), none⟩, st1, c1)
    | some "DEL_MFC" =>
      let p := vp.getD (.obj [])
      let source := (getStrField p "source").getD "0.0.0.0"
      let group := (getStrField p "group").getD ""
      match del_mfc_rule env st source group with
      | ((true, _), st1, c1) =>
        (⟨"success", some ("MFC entry for (" ++ source ++ ", " ++ group ++ ") deleted."),
          none⟩, st1, c1)
      | ((false, m), st1, c1) => (⟨"error", some m, none⟩, st1, c1)
    | some "SHOW" =>
      (⟨"success", none,
        some (.obj [("vif_map", encodeVifMap st.vif_map),
                    ("mfc_rules", .arr (st.mfc_rules.map encodeRule))])⟩, st, [])
    | _ => (⟨"error", some "Unknown action", none⟩, st, [])


/-! ## Concrete instances used by the scenario proofs -/

/-- Environment for the kernel-failure/rollback analysis: interfaces `a`
and `c` exist, `b` does not; every kernel call succeeds. -/
def envC1 : KernelEnv :=
  ⟨fun n => if n = "a" then some 10 else if n = "c" then some 30 else none,
   fun _ _ => true, fun _ _ => true, fun _ _ _ _ => true, fun _ _ => true⟩

/-- A daemon state with one pre-existing binding: interface `c` bound to
VIF 0 with ref-count 1. -/
def stC1 : DaemonState := ⟨[("c", ⟨0, 1, 30⟩)], []⟩

/-- Environment in which only interface `va` exists. -/
def envC2 : KernelEnv :=
  ⟨fun n => if n = "va" then some 7 else none,
   fun _ _ => true, fun _ _ => true, fun _ _ _ _ => true, fun _ _ => true⟩

/-- An ADD_MFC request whose input interface also appears in `oifs`. -/
def cmdC2 : JsonV :=
  .obj [("action", .str "ADD_MFC"),
        ("payload", .obj [("source", .str "1.1.1.1"), ("group", .str "239.1.1.1"),
                          ("iif", .str "va"), ("oifs", .arr [.str "va"])])]

/-- Environment in which no interface exists (irrelevant for requests
rejected by validation). -/
def envNone : KernelEnv :=
  ⟨fun _ => none, fun _ _ => true, fun _ _ => true, fun _ _ _ _ => true, fun _ _ => true⟩

/-- A DEL_MFC request whose payload omits `source`. -/
def cmdC9 : JsonV :=
  .obj [("action", .str "DEL_MFC"), ("payload", .obj [("group", .str "239.1.1.1")])]

/-- Environment for the replay analysis: interfaces `a` and `b` exist,
`x` does not. -/
def envC3 : KernelEnv :=
  ⟨fun n => if n = "a" then some 1 else if n = "b" then some 2 else none,
   fun _ _ => true, fun _ _ => true, fun _ _ _ _ => true, fun _ _ => true⟩

/-- A persisted rule whose input interface `x` no longer exists. -/
def rC3a : Rule := ⟨"1.1.1.1", "239.1.1.1", "x", ["a"]⟩

/-- A persisted rule that is applicable as it stands. -/
def rC3b : Rule := ⟨"2.2.2.2", "239.2.2.2", "a", ["b"]⟩

/-- A daemon state with one binding and one rule, for the persistence
format analysis. -/
def stC4 : DaemonState := ⟨[("e0", ⟨0, 1, 5⟩)], [⟨"1.1.1.1", "239.1.1.1", "e0", ["e1"]⟩]⟩

/-- The member of a top-level JSON object at a key. -/
def objMember : JsonV → String → Option JsonV
  | .obj fields, k => jlookup fields k
  | _, _ => none

/-- Environment for the shared-interface scenario: `i` is the shared
input interface, `o1` and `o2` the per-rule outputs. -/
def envC6 : KernelEnv :=
  ⟨fun n => if n = "i" then some 1 else if n = "o1" then some 2
            else if n = "o2" then some 3 else none,
   fun _ _ => true, fun _ _ => true, fun _ _ _ _ => true, fun _ _ => true⟩

/-- State after adding the first rule sharing input interface `i`. -/
def c6s1 : DaemonState := (add_mfc_rule envC6 ⟨[], []⟩ "s1" "g1" "i" ["o1"]).2.1

/-- State after also adding the second rule sharing input interface `i`. -/
def c6s2 : DaemonState := (add_mfc_rule envC6 c6s1 "s2" "g2" "i" ["o2"]).2.1

/-- State after deleting the first of the two rules. -/
def c6s3 : DaemonState := (del_mfc_rule envC6 c6s2 "s1" "g1").2.1

/-- State after deleting the second of the two rules. -/
def c6s4 : DaemonState := (del_mfc_rule envC6 c6s3 "s2" "g2").2.1

/-- Environment for the slot-reuse scenario over interfaces `a`-`d`. -/
def envC7 : KernelEnv :=
  ⟨fun n => if n = "a" then some 1 else if n = "b" then some 2
            else if n = "c" then some 3 else if n = "d" then some 4 else none,
   fun _ _ => true, fun _ _ => true, fun _ _ _ _ => true, fun _ _ => true⟩

/-- State after adding a rule on interfaces `a` (slot 0) and `b` (slot 1). -/
def c7s1 : DaemonState := (add_mfc_rule envC7 ⟨[], []⟩ "s1" "g1" "a" ["b"]).2.1

/-- State after also adding a rule on `a` and `c` (slot 2). -/
def c7s2 : DaemonState := (add_mfc_rule envC7 c7s1 "s2" "g2" "a" ["c"]).2.1

/-- State after deleting the only rule touching `b`, freeing slot 1. -/
def c7s3 : DaemonState := (del_mfc_rule envC7 c7s2 "s1" "g1").2.1

/-- State after adding a rule on `a` and the fresh interface `d`. -/
def c7s4 : DaemonState := (add_mfc_rule envC7 c7s3 "s3" "g3" "a" ["d"]).2.1

/-! ## Helper lemmas -/

theorem lookupFile_setFile_self (fs : List (String × FileState)) (p : String) (c : FileState) :
    lookupFile (setFile fs p c) p = some c := by
  induction fs with
  | nil => simp [setFile, lookupFile]
  | cons hd tl ih =>
    obtain ⟨p2, c2⟩ := hd
    by_cases h : p2 = p <;> simp [setFile, lookupFile, h, ih]

theorem eraseA_updateA (m : List (String × VifEntry)) (k : String) (v : VifEntry) :
    eraseA (updateA m k v) k = eraseA m k := by
  induction m with
  | nil => rfl
  | cons hd tl ih =>
    obtain ⟨k2, v2⟩ := hd
    by_cases h : k2 = k <;> simp [updateA, eraseA, h, ih]

theorem findFreeAux_some (m : List (String × VifEntry)) :
    ∀ fuel i k, findFreeAux m i fuel = some k →
      vifiUsed m k = false ∧ i ≤ k ∧ k < i + fuel ∧
        ∀ j, i ≤ j → j < k → vifiUsed m j = true := by
  intro fuel
  induction fuel with
  | zero => intro i k h; simp [findFreeAux] at h
  | succ n ih =>
    intro i k h
    rw [findFreeAux] at h
    by_cases hu : vifiUsed m i
    · rw [if_pos hu] at h
      obtain ⟨h1, h2, h3, h4⟩ := ih (i + 1) k h
      refine ⟨h1, by omega, by omega, ?_⟩
      intro j hij hjk
      rcases Nat.eq_or_lt_of_le hij with he | hl
      · rwa [← he]
      · exact h4 j hl hjk
    · rw [if_neg hu] at h
      obtain rfl : i = k := by simpa using h
      exact ⟨by simpa using hu, le_refl _, by omega,
             fun j h1 h2 => absurd (lt_of_le_of_lt h1 h2) (lt_irrefl _)⟩

theorem findFreeAux_none (m : List (String × VifEntry)) :
    ∀ fuel i, (∀ j, i ≤ j → j < i + fuel → vifiUsed m j = true) →
      findFreeAux m i fuel = none := by
  intro fuel
  induction fuel with
  | zero => intro i _; rfl
  | succ n ih =>
    intro i h
    rw [findFreeAux]
    rw [if_pos (h i (le_refl _) (by omega))]
    exact ih (i + 1) fun j h1 h2 => h j (by omega) (by omega)

theorem find_next_ok (m : List (String × VifEntry)) (i : Nat)
    (h : find_next_vifi m = .ok i) :
    vifiUsed m i = false ∧ i < 32 ∧ ∀ j, j < i → vifiUsed m j = true := by
  unfold find_next_vifi at h
  rcases hf : findFreeAux m 0 32 with _ | k
  · rw [hf] at h; exact absurd h (by simp)
  · rw [hf] at h
    have hk : k = i := by simpa using h
    subst hk
    obtain ⟨h1, _, h3, h4⟩ := findFreeAux_some m 32 0 k hf
    exact ⟨h1, by omega, fun j hj => h4 j (Nat.zero_le _) hj⟩

theorem find_next_full (m : List (String × VifEntry))
    (h : ∀ j, j < 32 → vifiUsed m j = true) :
    find_next_vifi m = .error (.runtimeError "Maximum number of VIFs (32) reached.") := by
  unfold find_next_vifi
  rw [findFreeAux_none m 32 0 (fun j _ hj => h j (by omega))]

theorem set_map_range (n v : Nat) (f : Nat → Nat) :
    ((List.range n).map f).set v 1 =
      (List.range n).map (fun i => if i = v then 1 else f i) := by
  apply List.ext_getElem
  · simp
  · intro i h1 h2
    simp at h1
    rw [List.getElem_set]
    simp [List.getElem_map, List.getElem_range]
    by_cases hiv : v = i
    · simp [hiv]
    · have hiv2 : i ≠ v := Ne.symm hiv
      simp [hiv2, hiv]

theorem mfccTtls_foldl (oifs : List Nat) :
    ∀ f : Nat → Nat,
      oifs.foldl (fun acc v => if v < 32 then acc.set v 1 else acc) ((List.range 32).map f)
        = (List.range 32).map (fun i => if i ∈ oifs then 1 else f i) := by
  induction oifs with
  | nil => intro f; simp
  | cons v rest ih =>
    intro f
    rw [List.foldl_cons]
    by_cases hv : v < 32
    · rw [if_pos hv, set_map_range, ih]
      apply List.map_congr_left
      intro i _
      by_cases h1 : i ∈ rest
      · simp [h1, List.mem_cons]
      · by_cases h2 : i = v <;> simp [h1, h2, List.mem_cons]
    · rw [if_neg hv, ih]
      apply List.map_congr_left
      intro i hi
      have hi32 : i < 32 := List.mem_range.mp hi
      have hne : i ≠ v := by omega
      simp [List.mem_cons, hne]

theorem mfccTtls_eq (oifs : List Nat) :
    mfccTtls oifs = (List.range 32).map (fun i => if i ∈ oifs then 1 else 0) := by
  have h0 : (List.replicate 32 (0 : Nat)) = (List.range 32).map (fun _ => 0) := by
    simp [List.map_const']
  rw [mfccTtls, h0, mfccTtls_foldl]

theorem release_spec (env : KernelEnv) (st : DaemonState) (name : String) (e : VifEntry)
    (h : lookupA st.vif_map name = some e)
    (hok : env.del_vif_ok e.vifi e.ifindex = true) :
    release_vif env st name =
      (if e.ref_count - 1 = 0
       then (.ok (), { st with vif_map := eraseA st.vif_map name },
             [.del_vif e.vifi e.ifindex])
       else (.ok (),
             { st with vif_map := updateA st.vif_map name ⟨e.vifi, e.ref_count - 1, e.ifindex⟩ },
             [])) := by
  unfold release_vif
  rw [h]
  by_cases hc : e.ref_count - 1 = 0 <;> simp [hc, hok, eraseA_updateA]

theorem acquire_new_spec (env : KernelEnv) (st : DaemonState) (name : String)
    (i ix : Nat)
    (hn : lookupA st.vif_map name = none)
    (hf : find_next_vifi st.vif_map = .ok i)
    (hix : env.ifindex name = some ix)
    (hok : env.add_vif_ok i ix = true) :
    get_or_create_vif env st name =
      (.ok i, { st with vif_map := st.vif_map ++ [(name, ⟨i, 1, ix⟩)] }, [.add_vif i ix]) := by
  unfold get_or_create_vif
  rw [hn, hf, hix]
  simp [hok]

theorem acquire_full_spec (env : KernelEnv) (st : DaemonState) (name : String)
    (hn : lookupA st.vif_map name = none)
    (h : ∀ j, j < 32 → vifiUsed st.vif_map j = true) :
    get_or_create_vif env st name =
      (.error (.runtimeError "Maximum number of VIFs (32) reached."), st, []) := by
  unfold get_or_create_vif
  rw [hn, find_next_full st.vif_map h]

theorem add_invalid_rejected (env : KernelEnv) (st : DaemonState) (p : JsonV)
    (h : addMfcPayloadOk p = false) :
    handle_command env st (.obj [("action", .str "ADD_MFC"), ("payload", p)]) =
      (⟨"error", some "Validation failed: Invalid ADD_MFC payload", none⟩, st, []) := by
  unfold handle_command cvValidate
  simp [baseCommandOk, propOk, requiredOk, jlookup, isStr, h]

theorem del_invalid_rejected (env : KernelEnv) (st : DaemonState) (p : JsonV)
    (h : delMfcPayloadOk p = false) :
    handle_command env st (.obj [("action", .str "DEL_MFC"), ("payload", p)]) =
      (⟨"error", some "Validation failed: Invalid DEL_MFC payload", none⟩, st, []) := by
  unfold handle_command cvValidate
  simp [baseCommandOk, propOk, requiredOk, jlookup, isStr, h]

theorem source_required_add (fields : List (String × JsonV))
    (h : jlookup fields "source" = none) :
    addMfcPayloadOk (.obj fields) = false := by
  simp [addMfcPayloadOk, requiredOk, h]

theorem source_required_del (fields : List (String × JsonV))
    (h : jlookup fields "source" = none) :
    delMfcPayloadOk (.obj fields) = false := by
  simp [delMfcPayloadOk, requiredOk, h]

/-! ## Claim theorems -/

/-- C1 (code bug, evaluation at the failing input): from a state whose
only binding is the pre-existing `c` (VIF 0, ref-count 1), the call
`add_mfc_rule("9.9.9.9", "239.9.9.9", iif = "a", oifs = ["b", "c"])`
fails while acquiring `b` (no such interface), after `a` was acquired
and before `c` was ever touched.  The claimed behaviour is an unwind of
only this transaction's acquisitions in LIFO order, leaving the
pre-existing refs intact; the code instead releases every name in
`[iif] ++ oifs`, which destroys the pre-existing binding `c`: the final
`vif_map` is empty and the kernel receives `del_vif` for VIF 0 even
though this transaction never acquired it. -/
theorem claim_C1_code_bug_eval :
    lookupA stC1.vif_map "c" = some ⟨0, 1, 30⟩ ∧
      add_mfc_rule envC1 stC1 "9.9.9.9" "239.9.9.9" "a" ["b", "c"] =
        (.error (.valueError "Interface b not found."), ⟨[], []⟩,
         [.add_vif 1 10, .del_vif 1 10, .del_vif 0 30]) :=
  ⟨rfl, rfl⟩

/-- C2 (counterexample): the request `cmdC2` has `iif = "va"` appearing
in `oifs` — invalid per the claim, which requires an error before any
kernel call or registry mutation.  The code accepts it: the response is
a success, `add_vif` and `add_mfc` reach the kernel, and the registry
and rule store are mutated. -/
theorem claim_C2_counterexample :
    handle_command envC2 ⟨[], []⟩ cmdC2 =
      (⟨"success", some "MFC entry for (1.1.1.1, 239.1.1.1) added.", none⟩,
       ⟨[("va", ⟨0, 2, 7⟩)], [⟨"1.1.1.1", "239.1.1.1", "va", ["va"]⟩]⟩,
       [.add_vif 0 7, .add_mfc "1.1.1.1" "239.1.1.1" 0 [0]]) := rfl

/-- C2 (amended): for every ADD_MFC request whose payload fails the
structural schema (wrong member types, empty or duplicate-item `oifs`,
missing required field), the dispatcher returns an error response and
neither the state nor the kernel is touched.  The address-literal,
multicast-range, iif-not-in-oifs and duplicate-key conditions of the
original claim are not checked anywhere in the code. -/
theorem claim_C2_amended_thm (env : KernelEnv) (st : DaemonState) (p : JsonV)
    (h : addMfcPayloadOk p = false) :
    handle_command env st (.obj [("action", .str "ADD_MFC"), ("payload", p)]) =
      (⟨"error", some "Validation failed: Invalid ADD_MFC payload", none⟩, st, []) :=
  add_invalid_rejected env st p h

/-- C2 (witness): the amended theorem applied to the concrete payload
with an empty object (every required field missing). -/
theorem claim_C2_witness :
    handle_command envNone ⟨[], []⟩ (.obj [("action", .str "ADD_MFC"), ("payload", .obj [])]) =
      (⟨"error", some "Validation failed: Invalid ADD_MFC payload", none⟩, ⟨[], []⟩, []) :=
  claim_C2_amended_thm envNone ⟨[], []⟩ (.obj []) rfl

/-- C3 (counterexample): replaying the persisted list `[rC3a, rC3b]`
aborts at `rC3a` (its interface `x` is gone) and `rC3b` is never
submitted — the final store is empty — although `rC3b` on its own would
succeed from the state left behind, as the second conjunct shows.  The
claim requires the replay to continue past the failure. -/
theorem claim_C3_counterexample :
    load_state_parsed envC3 ⟨[], []⟩ [rC3a, rC3b] =
      (⟨[], []⟩, [], some (.valueError "Interface x not found.")) ∧
      add_mfc_rule envC3 ⟨[], []⟩ rC3b.source rC3b.group rC3b.iif rC3b.oifs =
        (.ok (true, "MFC entry added successfully."),
         ⟨[("a", ⟨0, 1, 1⟩), ("b", ⟨1, 1, 2⟩)], [rC3b]⟩,
         [.add_vif 0 1, .add_vif 1 2, .add_mfc "2.2.2.2" "239.2.2.2" 0 [1]]) :=
  ⟨rfl, rfl⟩

/-- C3 (amended): during startup replay each persisted rule is
submitted as a fresh `add_mfc_rule` call in order, UP TO the first
failure; a failure aborts the replay — the resulting state, trace and
logged error are those of the failed call, independent of every rule
after it — while a successful call lets the replay continue with the
remaining rules. -/
theorem claim_C3_amended_thm :
    (∀ (env : KernelEnv) (st : DaemonState) (r : Rule) (rs : List Rule) (e : PyErr)
       (st1 : DaemonState) (c1 : List KernelCall),
       add_mfc_rule env st r.source r.group r.iif r.oifs = (.error e, st1, c1) →
       replayRules env st (r :: rs) = (st1, c1, some e)) ∧
    (∀ (env : KernelEnv) (st : DaemonState) (r : Rule) (rs : List Rule) (v : Bool × String)
       (st1 st2 : DaemonState) (c1 c2 : List KernelCall) (e2 : Option PyErr),
       add_mfc_rule env st r.source r.group r.iif r.oifs = (.ok v, st1, c1) →
       replayRules env st1 rs = (st2, c2, e2) →
       replayRules env st (r :: rs) = (st2, c1 ++ c2, e2)) := by
  constructor
  · intro env st r rs e st1 c1 h
    unfold replayRules
    rw [h]
  · intro env st r rs v st1 st2 c1 c2 e2 h hr
    unfold replayRules
    rw [h]
    dsimp only
    rw [hr]

/-- C3 (witness): the abort half of the amended theorem applied to the
concrete replay list `[rC3a, rC3b]`. -/
theorem claim_C3_witness :
    replayRules envC3 ⟨[], []⟩ [rC3a, rC3b] =
      (⟨[], []⟩, [], some (.valueError "Interface x not found.")) :=
  claim_C3_amended_thm.1 envC3 ⟨[], []⟩ rC3a [rC3b]
    (.valueError "Interface x not found.") ⟨[], []⟩ [] rfl

/-- C4 (counterexample): the document written by `save_state` for the
concrete state `stC4` has the two top-level keys `vif_map` and
`mfc_rules` — not the single key `mfc_rules` — and the VIF bindings are
serialized under `vif_map`. -/
theorem claim_C4_counterexample :
    topLevelKeys (save_state_doc stC4) = ["vif_map", "mfc_rules"] ∧
      objMember (save_state_doc stC4) "vif_map" =
        some (.obj [("e0", .obj [("vifi", .num 0), ("ref_count", .num 1),
                                 ("ifindex", .num 5)])]) :=
  ⟨rfl, rfl⟩

/-- C4 (amended): for every daemon state the persisted document is a
top-level object with exactly the keys `vif_map` and `mfc_rules`, in
that order; `mfc_rules` maps to the rule list in insertion order, and
the VIF bindings ARE written, under `vif_map` (`load_state` ignores
them on the way back in). -/
theorem claim_C4_amended_thm (st : DaemonState) :
    topLevelKeys (save_state_doc st) = ["vif_map", "mfc_rules"] ∧
      objMember (save_state_doc st) "mfc_rules" = some (.arr (st.mfc_rules.map encodeRule)) ∧
      objMember (save_state_doc st) "vif_map" = some (encodeVifMap st.vif_map) :=
  ⟨rfl, rfl, rfl⟩

/-- C5 (counterexample): `save_state` on the path `state.json` emits a
truncating open of the final path followed by one write, with no
rename; after the first of those two operations the previously existing
file content is already gone (the file is empty), so an I/O error
between the open and the completed write does not leave the old file
untouched. -/
theorem claim_C5_counterexample :
    save_state_ops "state.json" stC4 =
      [.openWrite "state.json", .writeDoc "state.json" (save_state_doc stC4)] ∧
      applyOps [("state.json", .data (.obj [("mfc_rules", .arr [])]))]
          ((save_state_ops "state.json" stC4).take 1) =
        [("state.json", .truncated)] :=
  ⟨rfl, rfl⟩

/-- C5 (amended): for every path, state and file system, `save_state`
writes the serialized document directly to the final path — a
truncating open followed by the write, with no temporary file and no
rename — so after the complete operation the path holds the new
document, but after only the truncating open (the state an I/O error
during writing leaves behind) the path holds an empty file rather than
the previous content. -/
theorem claim_C5_amended_thm (path : String) (st : DaemonState)
    (fs : List (String × FileState)) :
    lookupFile (applyOps fs (save_state_ops path st)) path =
        some (.data (save_state_doc st)) ∧
      lookupFile (applyOps fs ((save_state_ops path st).take 1)) path = some .truncated ∧
      (save_state_ops path st).all (fun op => !isRename op) = true := by
  refine ⟨?_, ?_, rfl⟩
  · simp [applyOps, save_state_ops, applyOp, lookupFile_setFile_self]
  · simp [applyOps, save_state_ops, applyOp, lookupFile_setFile_self]

/-- C6: for every registry state and interface name with an existing
binding (and a kernel that accepts the `del_vif`), `release_vif`
decrements the binding's ref-count by exactly one, issuing `del_vif`
and removing the binding exactly when the count reaches zero; and in
the concrete two-rules-sharing-`i` scenario, after both adds the shared
binding has ref-count 2, deleting the first rule leaves ref-count 1
with no `del_vif` for `i` in that call's trace, and deleting the second
removes the binding with exactly one `del_vif` for `i`. -/
theorem claim_C6_thm :
    (∀ (env : KernelEnv) (st : DaemonState) (name : String) (e : VifEntry),
       lookupA st.vif_map name = some e →
       env.del_vif_ok e.vifi e.ifindex = true →
       release_vif env st name =
         (if e.ref_count - 1 = 0
          then (.ok (), { st with vif_map := eraseA st.vif_map name },
                [.del_vif e.vifi e.ifindex])
          else (.ok (),
                { st with vif_map :=
                    updateA st.vif_map name ⟨e.vifi, e.ref_count - 1, e.ifindex⟩ },
                []))) ∧
      lookupA c6s2.vif_map "i" = some ⟨0, 2, 1⟩ ∧
      (del_mfc_rule envC6 c6s2 "s1" "g1").2.2 = [.del_mfc "s1" "g1", .del_vif 1 2] ∧
      lookupA c6s3.vif_map "i" = some ⟨0, 1, 1⟩ ∧
      (del_mfc_rule envC6 c6s3 "s2" "g2").2.2 =
        [.del_mfc "s2" "g2", .del_vif 0 1, .del_vif 2 3] ∧
      ((del_mfc_rule envC6 c6s3 "s2" "g2").2.2.count (.del_vif 0 1)) = 1 ∧
      lookupA c6s4.vif_map "i" = none :=
  ⟨release_spec, rfl, rfl, rfl, rfl, rfl, rfl⟩

/-- C6 (witness): the general half applied to a concrete binding with
ref-count 2 — the release leaves ref-count 1 and issues no kernel
call. -/
theorem claim_C6_witness :
    release_vif envC6 ⟨[("i", ⟨0, 2, 1⟩)], []⟩ "i" =
      (.ok (), ⟨[("i", ⟨0, 1, 1⟩)], []⟩, []) :=
  (claim_C6_thm.1 envC6 ⟨[("i", ⟨0, 2, 1⟩)], []⟩ "i" ⟨0, 2, 1⟩ rfl rfl).trans rfl

/-- C7: for every registry state and name with no binding, a successful
acquisition returns the index chosen by `find_next_vifi`, which is
unused, below 32, and has every smaller index in use (the lowest free
slot), inserting the binding with ref-count 1; when all 32 slots are in
use the acquisition fails with the RuntimeError and no binding is
inserted, no kernel call made; and in the concrete scenario, after
rules on A,B then A,C, deleting the rule touching B frees its slot 1
and a new add touching D assigns exactly that slot to D. -/
theorem claim_C7_thm :
    (∀ (env : KernelEnv) (st : DaemonState) (name : String) (i ix : Nat),
       lookupA st.vif_map name = none →
       find_next_vifi st.vif_map = .ok i →
       env.ifindex name = some ix →
       env.add_vif_ok i ix = true →
       vifiUsed st.vif_map i = false ∧ i < 32 ∧ (∀ j, j < i → vifiUsed st.vif_map j = true) ∧
         get_or_create_vif env st name =
           (.ok i, { st with vif_map := st.vif_map ++ [(name, ⟨i, 1, ix⟩)] },
            [.add_vif i ix])) ∧
    (∀ (env : KernelEnv) (st : DaemonState) (name : String),
       lookupA st.vif_map name = none →
       (∀ j, j < 32 → vifiUsed st.vif_map j = true) →
       get_or_create_vif env st name =
         (.error (.runtimeError "Maximum number of VIFs (32) reached."), st, [])) ∧
      lookupA c7s2.vif_map "b" = some ⟨1, 1, 2⟩ ∧
      lookupA c7s3.vif_map "b" = none ∧
      lookupA c7s4.vif_map "d" = some ⟨1, 1, 4⟩ := by
  refine ⟨?_, acquire_full_spec, rfl, rfl, rfl⟩
  intro env st name i ix hn hf hix hok
  obtain ⟨h1, h2, h3⟩ := find_next_ok st.vif_map i hf
  exact ⟨h1, h2, h3, acquire_new_spec env st name i ix hn hf hix hok⟩

/-- C7 (witness): the successful-acquisition half applied to the empty
registry — interface `a` receives the lowest slot, 0. -/
theorem claim_C7_witness :
    get_or_create_vif envC7 ⟨[], []⟩ "a" =
      (.ok 0, ⟨[("a", ⟨0, 1, 1⟩)], []⟩, [.add_vif 0 1]) :=
  ((claim_C7_thm.1 envC7 ⟨[], []⟩ "a" 0 1 rfl rfl rfl rfl).2.2.2).trans rfl

/-- C8: the MFC control record of `C_HEADER_CODE` laid out by the C ABI
is exactly 60 bytes; the per-VIF TTL array sits at offset 10 and the
explicit two padding bytes at offset 42 separate it from the kernel
counter fields which start at offset 44 (= 10 + 32 + 2); and the TTL
array built by `_add_mfc` holds 1 at exactly the indices in the output
set and 0 elsewhere. -/
theorem claim_C8_thm :
    structSize mfcctlFields = 60 ∧
      offsetOf mfcctlFields "mfcc_ttls" = some 10 ∧
      offsetOf mfcctlFields "_padding" = some 42 ∧
      offsetOf mfcctlFields "mfcc_pkt_cnt" = some 44 ∧
      ∀ oifs : List Nat,
        mfccTtls oifs = (List.range 32).map (fun i => if i ∈ oifs then 1 else 0) :=
  ⟨rfl, rfl, rfl, rfl, mfccTtls_eq⟩

/-- C9 (counterexample): a DEL_MFC request whose payload omits `source`
is rejected with a validation error — it is not accepted with the
wildcard default the claim describes. -/
theorem claim_C9_counterexample :
    handle_command envNone ⟨[], []⟩ cmdC9 =
      (⟨"error", some "Validation failed: Invalid DEL_MFC payload", none⟩, ⟨[], []⟩, []) := rfl

/-- C9 (amended): `source` is a required property of both the ADD_MFC
and the DEL_MFC schema, so every request whose payload omits it is
rejected by validation with an error response, the state unchanged and
no kernel call issued; the `"0.0.0.0"` defaults in the dispatcher are
unreachable for validated payloads. -/
theorem claim_C9_amended_thm (env : KernelEnv) (st : DaemonState)
    (fields : List (String × JsonV)) (h : jlookup fields "source" = none) :
    handle_command env st (.obj [("action", .str "ADD_MFC"), ("payload", .obj fields)]) =
        (⟨"error", some "Validation failed: Invalid ADD_MFC payload", none⟩, st, []) ∧
      handle_command env st (.obj [("action", .str "DEL_MFC"), ("payload", .obj fields)]) =
        (⟨"error", some "Validation failed: Invalid DEL_MFC payload", none⟩, st, []) :=
  ⟨add_invalid_rejected env st (.obj fields) (source_required_add fields h),
   del_invalid_rejected env st (.obj fields) (source_required_del fields h)⟩

/-- C9 (witness): the amended theorem applied to the concrete payload
holding only a group. -/
theorem claim_C9_witness :
    handle_command envNone ⟨[], []⟩
        (.obj [("action", .str "ADD_MFC"),
               ("payload", .obj [("group", .str "239.0.0.1")])]) =
      (⟨"error", some "Validation failed: Invalid ADD_MFC payload", none⟩, ⟨[], []⟩, []) :=
  (claim_C9_amended_thm envNone ⟨[], []⟩ [("group", .str "239.0.0.1")] rfl).1

/-- C10: for every environment, daemon state and parsed request value —
including non-objects, unknown actions, malformed payloads and payloads
whose processing raises — the dispatcher returns a response whose
status is "success" or "error"; exceptions raised by the handlers are
converted by its catch-all into error responses and never escape. -/
theorem claim_C10_thm (env : KernelEnv) (st : DaemonState) (cmd : JsonV) :
    (handle_command env st cmd).1.status = "success" ∨
      (handle_command env st cmd).1.status = "error" := by
  unfold handle_command
  repeat' split <;> (try simp)
